import Mathlib

/-!
Verification of the interactive monitoring-scenario harness
(`scripts/test_monitoring_senarios.py`) and the trivial worker handler
(`lambda/worker.py`).

External effects (subprocess results, terminal input, file-system probes)
are passed in explicitly as oracle arguments; each modelled operation
returns a record describing its result together with the observable
actions it performed (commands invoked, files written or removed,
messages printed).
-/

namespace Monitoring

/-- A minimal JSON value model, sufficient for the state file and the
worker response body. Python `json.dump` / `json.load` round-trips these
constructors faithfully. Numbers are modelled as integers (the only
non-integer number in play is the `last_updated` timestamp, whose exact
value is irrelevant to every property below). -/
inductive JVal where
  | jnull
  | jbool (b : Bool)
  | jint (n : Int)
  | jstr (s : String)
  | jarr (xs : List JVal)
  | jobj (fields : List (String × JVal))

/-- Lookup of a key in a JSON object field list, first match wins;
missing key yields `jnull`, the model of Python `dict.get(k)` returning
`None` (a stored JSON `null` also loads as `None`, so both collapse to
`jnull`). -/
def jLookup : List (String × JVal) → String → JVal
  | [], _ => .jnull
  | (k, v) :: rest, key => if k == key then v else jLookup rest key

/-- `pyGet j k` models `j.get(k)` on the dict loaded from JSON `j`. -/
def pyGet : JVal → String → JVal
  | .jobj fields, key => jLookup fields key
  | _, _ => .jnull

/-- Encoding of an optional scenario number as stored by `save_state`
(`None` becomes JSON null). -/
def encOptInt : Option Int → JVal
  | none => .jnull
  | some n => .jint n

/-- Encoding of an optional sink ARN as stored by `save_state`. -/
def encOptStr : Option String → JVal
  | none => .jnull
  | some s => .jstr s

/-- The JSON object `save_state` writes:
`{current_scenario, sink_arn, last_updated}` (source lines 1283-1288). -/
def stateJson (cur : Option Int) (sink : Option String) (now : Int) : JVal :=
  .jobj [("current_scenario", encOptInt cur),
         ("sink_arn", encOptStr sink),
         ("last_updated", .jint now)]

/-- Observable condition of the state file when `load_state` runs:
absent, present but unparseable (`json.load` raises), or parsed. -/
inductive FileState where
  | missing
  | corrupt
  | content (j : JVal)

/-- The default record `load_state` returns when the file is missing or
unreadable (source line 1276). -/
def defaultState : JVal :=
  .jobj [("current_scenario", .jnull), ("sink_arn", .jnull)]

/-- `load_state` (source lines 1267-1276): reads the JSON state file;
a missing file or a parse exception is swallowed and gives the default
record. -/
def load_state : FileState → JVal
  | .missing => defaultState
  | .corrupt => defaultState
  | .content j => j

/-- Result of `save_state`: either the file now holds the written JSON,
or the write raised, the exception was caught, a warning was printed and
the call returned normally (source lines 1289-1290). -/
inductive SaveResult where
  | written (j : JVal)
  | warnedFailure

/-- `save_state` (source lines 1279-1290): writes the state JSON; any
exception is caught and logged as a warning, never propagated. The
`writeOk` oracle tells whether the file write succeeds. -/
def save_state (writeOk : Bool) (cur : Option Int) (sink : Option String)
    (now : Int) : SaveResult :=
  if writeOk then .written (stateJson cur sink now) else .warnedFailure

/-- Python `str.lower()` (ASCII case mapping, which covers every input
the script compares against). -/
def strLower (s : String) : String :=
  ⟨s.data.map Char.toLower⟩

/-- Python `str.upper()` (ASCII case mapping). -/
def strUpper (s : String) : String :=
  ⟨s.data.map Char.toUpper⟩

/-- ASCII whitespace recognized when stripping input lines. -/
def isSpaceChar (c : Char) : Bool :=
  c == ' ' || c == '\t' || c == '\n' || c == '\r'

/-- Drop leading whitespace characters. -/
def dropLeadSpaces : List Char → List Char
  | [] => []
  | c :: cs => if isSpaceChar c then dropLeadSpaces cs else c :: cs

/-- Python `str.strip()` on terminal input (ASCII whitespace). -/
def pyStrip (s : String) : String :=
  ⟨((dropLeadSpaces ((dropLeadSpaces s.data).reverse)).reverse)⟩

/-- The action a stripped menu input line is dispatched to by the
`elif` chain in `main` (source lines 1342-1487). -/
inductive MenuAction where
  | quit
  | deployMonitoring (adot : Bool)
  | scenarioChoice (n : Nat)
  | testCurrent
  | listStacks
  | generateLoad
  | showGrafana
  | destroyInteractive
  | destroyCurrent
  | destroyMonitoringChoice
  | invalid
deriving DecidableEq

/-- The dispatch chain of `main` (source lines 1342-1487), branch by
branch in source order, on the already-stripped input line. The second
`t` test (source line 1418) is unreachable and kept for fidelity. -/
def dispatch (choice : String) : MenuAction :=
  if strLower choice == "q" then .quit
  else if choice == "0" then .deployMonitoring false
  else if strUpper choice == "A" then .deployMonitoring true
  else if choice == "1" then .scenarioChoice 1
  else if choice == "2" then .scenarioChoice 2
  else if choice == "3" then .scenarioChoice 3
  else if choice == "4" then .scenarioChoice 4
  else if choice == "5" then .scenarioChoice 5
  else if choice == "6" then .scenarioChoice 6
  else if choice == "t" then .testCurrent
  else if strLower choice == "l" then .listStacks
  else if strLower choice == "t" then .testCurrent
  else if strLower choice == "g" then .generateLoad
  else if strUpper choice == "G" then .showGrafana
  else if strUpper choice == "D" then .destroyInteractive
  else if strLower choice == "d" then .destroyCurrent
  else if strUpper choice == "M" then .destroyMonitoringChoice
  else .invalid

/-- Continuation of a digit run after its first digit: further digits,
with single underscores allowed between digits (PEP 515). A trailing
underscore, a doubled underscore, or any other character fails the
parse. -/
def parseDigitsAux : List Char → Nat → Option Nat
  | [], acc => some acc
  | ['_'], _ => none
  | '_' :: c :: cs, acc =>
    if c.isDigit then parseDigitsAux cs (acc * 10 + (c.toNat - 48)) else none
  | c :: cs, acc =>
    if c.isDigit then parseDigitsAux cs (acc * 10 + (c.toNat - 48)) else none

/-- A digit run in Python `int` literal syntax: starts with a digit,
then digits with optional single underscore separators. -/
def parseDigitsNE : List Char → Option Nat
  | [] => none
  | c :: cs => if c.isDigit then parseDigitsAux cs (c.toNat - 48) else none

/-- Model of Python `int(s)` on an already-stripped string: optional
sign, then decimal digits with optional single underscore separators
between digits (PEP 515). Exact for strings of printable ASCII
characters; non-ASCII decimal digits, which `int()` also accepts, are
outside the modelled input alphabet. -/
def pyIntParse (s : String) : Option Int :=
  match s.data with
  | '+' :: cs => (parseDigitsNE cs).map Int.ofNat
  | '-' :: cs => (parseDigitsNE cs).map (fun n => -(Int.ofNat n))
  | cs => (parseDigitsNE cs).map Int.ofNat

/-- Printable non-whitespace ASCII: the input alphabet on which
`pyIntParse` agrees exactly with Python `int()` (no character of such a
string is stripped by `int()`, and base-10 literal acceptance is then
sign plus underscore-grouped ASCII digits). -/
def isPrintableAscii (c : Char) : Bool :=
  33 ≤ c.toNat && c.toNat ≤ 126

/-- Python truthiness of an optional string: `None` and the empty
string are falsy. Models `not sink_arn`. -/
def pyFalsyStr : Option String → Bool
  | none => true
  | some s => s == ""

/-- The session state `main` keeps in locals and in the state file. -/
structure Session where
  current_scenario : Option Nat
  sink_arn : Option String
deriving DecidableEq

/-- Observable outcome of one pass through the scenario-digit branch of
`main` (source lines 1375-1396): resulting session, whether the
requires-monitoring error was printed, whether `deploy_scenario` was
called (and with which sink argument), and whether `save_state` ran. -/
structure ScenarioStepOut where
  sess : Session
  errorPrinted : Bool
  deployCalled : Bool
  deployArg : Option (Option String)
  stateSaved : Bool
deriving DecidableEq

/-- The scenario-digit branch of `main` (source lines 1375-1396).
Oracles: `useSinkAnswer` is the reply to the cross-account prompt
(asked only for scenarios outside {2,6} when a sink is set), and
`deployResult` is the boolean `deploy_scenario` returns when invoked. -/
def scenario_menu_step (sess : Session) (n : Nat) (useSinkAnswer : String)
    (deployResult : Bool) : ScenarioStepOut :=
  if (n == 2 || n == 6) && pyFalsyStr sess.sink_arn then
    { sess := sess, errorPrinted := true, deployCalled := false,
      deployArg := none, stateSaved := false }
  else
    let use_sink :=
      if !(n == 2 || n == 6) && !pyFalsyStr sess.sink_arn then
        strLower useSinkAnswer == "y"
      else false
    let sinkArg := if (n == 2 || n == 6) || use_sink then sess.sink_arn else none
    if deployResult then
      { sess := { current_scenario := some n, sink_arn := sess.sink_arn },
        errorPrinted := false, deployCalled := true,
        deployArg := some sinkArg, stateSaved := true }
    else
      { sess := sess, errorPrinted := false, deployCalled := true,
        deployArg := some sinkArg, stateSaved := false }

/-- Outcome of the load-generation menu branch (input `g`). -/
inductive GOutcome where
  | noScenario
  | rejectedRange (d : Int)
  | rejectedParse
  | notConfirmed (d : Int)
  | loadRun (d : Int)
deriving DecidableEq

/-- The `g` branch of `main` (source lines 1425-1449): requires a
current scenario; an empty duration entry defaults to 5; a non-integer
entry or an integer outside 1..30 is rejected before the confirmation
prompt; `generate_load` runs only on a `y` confirmation. -/
def g_menu_step (current : Option Nat) (durRaw : String)
    (confirmAnswer : String) : GOutcome :=
  match current with
  | none => .noScenario
  | some _ =>
    let s := pyStrip durRaw
    if s == "" then
      if strLower confirmAnswer == "y" then .loadRun 5 else .notConfirmed 5
    else
      match pyIntParse s with
      | none => .rejectedParse
      | some d =>
        if d < 1 || d > 30 then .rejectedRange d
        else if strLower confirmAnswer == "y" then .loadRun d
        else .notConfirmed d

/-- `charsLead pat s`: `pat` is a leading segment of `s`. -/
def charsLead : List Char → List Char → Bool
  | [], _ => true
  | _ :: _, [] => false
  | a :: as, b :: bs => a == b && charsLead as bs

/-- `charsHasSub pat s`: `pat` occurs contiguously inside `s`. -/
def charsHasSub (pat : List Char) : List Char → Bool
  | [] => pat.isEmpty
  | b :: rest => charsLead pat (b :: rest) || charsHasSub pat rest

/-- Model of the Python membership test `pat in s` on strings. -/
def strHasSub (s pat : String) : Bool :=
  charsHasSub pat.data s.data

/-- Observable outcome of `destroy_scenario` / `destroy_monitoring_account`:
the returned boolean, whether `cdk destroy` was invoked, whether the
entry-point artifact was (re)generated during the call, whether the
artifact exists afterwards, and whether the confirmation prompt was
reached. -/
structure DestroyOutcome where
  result : Bool
  destroyInvoked : Bool
  binWritten : Bool
  binExistsAfter : Bool
  confirmAsked : Bool
deriving DecidableEq

/-- `destroy_scenario` (source lines 780-850). Oracles: result of the
`describe-stks` existence check (`describeRc`, `describeErr`), whether
`bin/deploy-scenarioN.ts` exists (`binExists0`), the confirmation reply
(`answer`, lowercased by the source), and the `cdk destroy` exit code
(`destroyRc`). A stderr containing `does not exist` on a failed check is
treated as already-deleted: the artifact is cleaned up and the call
returns `True` with no destroy invocation. A missing artifact after
confirmation aborts with `False` (the source does not regenerate it
here). -/
def destroy_scenario (describeRc : Int) (describeErr : String)
    (binExists0 : Bool) (answer : String) (destroyRc : Int) : DestroyOutcome :=
  if describeRc != 0 then
    if strHasSub describeErr "does not exist" then
      { result := true, destroyInvoked := false, binWritten := false,
        binExistsAfter := false, confirmAsked := false }
    else
      { result := false, destroyInvoked := false, binWritten := false,
        binExistsAfter := binExists0, confirmAsked := false }
  else if strLower answer != "y" then
    { result := false, destroyInvoked := false, binWritten := false,
      binExistsAfter := binExists0, confirmAsked := true }
  else if !binExists0 then
    { result := false, destroyInvoked := false, binWritten := false,
      binExistsAfter := false, confirmAsked := true }
  else if destroyRc != 0 then
    { result := false, destroyInvoked := true, binWritten := false,
      binExistsAfter := true, confirmAsked := true }
  else
    { result := true, destroyInvoked := true, binWritten := false,
      binExistsAfter := false, confirmAsked := true }

/-- `destroy_monitoring_account` (source lines 853-952). Same oracle
scheme as `destroy_scenario`; the difference is that after confirmation
a missing `bin/deploy-monitoring.ts` is regenerated (source lines
893-925) before `cdk destroy` runs. The `Parameters` query it issues
while regenerating is ignored by the source and therefore not an
oracle. -/
def destroy_monitoring_account (describeRc : Int) (describeErr : String)
    (binExists0 : Bool) (answer : String) (destroyRc : Int) : DestroyOutcome :=
  if describeRc != 0 then
    if strHasSub describeErr "does not exist" then
      { result := true, destroyInvoked := false, binWritten := false,
        binExistsAfter := false, confirmAsked := false }
    else
      { result := false, destroyInvoked := false, binWritten := false,
        binExistsAfter := binExists0, confirmAsked := false }
  else if strLower answer != "y" then
    { result := false, destroyInvoked := false, binWritten := false,
      binExistsAfter := binExists0, confirmAsked := true }
  else
    let written := !binExists0
    if destroyRc != 0 then
      { result := false, destroyInvoked := true, binWritten := written,
        binExistsAfter := true, confirmAsked := true }
    else
      { result := true, destroyInvoked := true, binWritten := written,
        binExistsAfter := false, confirmAsked := true }

/-- Observable outcome of `deploy_monitoring_account`: the returned
sink ARN (or `none`), whether the entry-point artifact was written,
whether `cdk synth` / `cdk deploy` ran, and whether an error was
printed. -/
structure DeployMonOutcome where
  result : Option String
  binWritten : Bool
  synthRun : Bool
  deployRun : Bool
  errorPrinted : Bool
deriving DecidableEq

/-- `deploy_monitoring_account` (source lines 165-305). Oracles: the
`sts get-caller-identity` exit code and the `Account` field of its JSON
output, the outcome of the bootstrap check, the `cdk synth` exit code,
the deployment confirmation reply, the `cdk deploy` exit code, and the
exit code and stdout of the `SinkArn` output query. The identity check
precedes artifact generation: on a credential failure or an account
mismatch the function returns `None` with nothing written and nothing
synthesized or deployed. -/
def deploy_monitoring_account (expectedAccount : String) (stsRc : Int)
    (stsAccount : String) (bootstrapOk : Bool) (synthRc : Int)
    (confirmAnswer : String) (deployRc : Int) (sinkQueryRc : Int)
    (sinkOut : String) : DeployMonOutcome :=
  if stsRc != 0 then
    { result := none, binWritten := false, synthRun := false,
      deployRun := false, errorPrinted := true }
  else if stsAccount != expectedAccount then
    { result := none, binWritten := false, synthRun := false,
      deployRun := false, errorPrinted := true }
  else if !bootstrapOk then
    { result := none, binWritten := false, synthRun := false,
      deployRun := false, errorPrinted := false }
  else if synthRc != 0 then
    { result := none, binWritten := true, synthRun := true,
      deployRun := false, errorPrinted := true }
  else if strLower confirmAnswer != "y" then
    { result := none, binWritten := true, synthRun := true,
      deployRun := false, errorPrinted := false }
  else if deployRc != 0 then
    { result := none, binWritten := true, synthRun := true,
      deployRun := true, errorPrinted := true }
  else if sinkQueryRc == 0 then
    { result := some (pyStrip sinkOut), binWritten := true, synthRun := true,
      deployRun := true, errorPrinted := false }
  else
    { result := none, binWritten := true, synthRun := true,
      deployRun := true, errorPrinted := true }

/-- One iteration of a load loop: the zero-based index and whether the
external call returned exit code 0. A failed iteration is logged and
skipped; it never stops the loop. -/
structure Attempt where
  index : Nat
  ok : Bool
deriving DecidableEq

/-- `for i in range(n)` issuing one external call per iteration, with
`rc i` the exit code of iteration `i`. -/
def runAttempts (rc : Nat → Int) : Nat → List Attempt
  | 0 => []
  | n + 1 => runAttempts rc n ++ [{ index := n, ok := rc n == 0 }]

/-- `generate_load_scenario1` (source lines 515-553): aborts with
`False` and zero attempts when `outputs.get('LambdaFunctionName')` is
falsy (`if not lambda_name`: key absent, or value an empty string);
otherwise performs `duration * 12` Lambda invocation attempts and
returns `True`. Output dict modelled as an association list (stack
output keys are unique). -/
def generate_load_scenario1 (outputs : List (String × String))
    (invokeRc : Nat → Int) (duration : Nat) : Bool × List Attempt :=
  if pyFalsyStr (outputs.lookup "LambdaFunctionName") then (false, [])
  else (true, runAttempts invokeRc (duration * 12))

/-- `generate_load_scenario2` (source lines 556-599): aborts with
`False` and zero attempts when `outputs.get('TableName')` is falsy
(`if not table_name`); otherwise performs `duration * 10` DynamoDB
put-item attempts and returns `True`. -/
def generate_load_scenario2 (outputs : List (String × String))
    (putRc : Nat → Int) (duration : Nat) : Bool × List Attempt :=
  if pyFalsyStr (outputs.lookup "TableName") then (false, [])
  else (true, runAttempts putRc (duration * 10))

/-- Split a character list at commas, keeping empty pieces, as Python
`str.split(',')` does. -/
def splitCommaAux : List Char → List Char → List String
  | [], acc => [⟨acc.reverse⟩]
  | c :: cs, acc =>
    if c == ',' then ⟨acc.reverse⟩ :: splitCommaAux cs []
    else splitCommaAux cs (c :: acc)

/-- Python `choice.split(',')`. -/
def splitComma (s : String) : List String :=
  splitCommaAux s.data []

/-- `[int(x.strip()) for x in choice.split(',')]`: every comma-separated
piece must parse as an integer, else the whole list raises
`ValueError`. -/
def parseIndices (choice : String) : Option (List Int) :=
  (splitComma choice).mapM (fun x => pyIntParse (pyStrip x))

/-- The index-walking loop of `interactive_destroy_stacks` (source
lines 1039-1044): each index must lie in `1..len(stks)`, and the
stack at that position is collected; one invalid index rejects the
whole selection. -/
def collectSel (stks : List String) : List Int → Option (List String)
  | [] => some []
  | i :: rest =>
    if 1 ≤ i && i ≤ (stks.length : Int) then
      match collectSel stks rest with
      | none => none
      | some tl => some (stks.getD (i - 1).toNat "" :: tl)
    else none

/-- The selection step of `interactive_destroy_stacks` (source lines
1026-1051) on the stripped, lowercased input: `q` cancels, `all`
selects every stack, otherwise a comma-separated index list is parsed
and walked; a parse failure, an out-of-range index, or an empty
resulting selection rejects everything (`none` = no stack selected). -/
def select_stacks_core (stks : List String) (choice : String) :
    Option (List String) :=
  if choice == "q" then none
  else if choice == "all" then some stks
  else
    match parseIndices choice with
    | none => none
    | some is =>
      match collectSel stks is with
      | none => none
      | some sel => if sel.isEmpty then none else some sel

/-- The selection step on the raw input line, which the source strips
and lowercases first (source line 1026). -/
def interactive_select (stks : List String) (raw : String) :
    Option (List String) :=
  select_stacks_core stks (strLower (pyStrip raw))

/-- An input event for the worker handler: per the handler contract the
`items` key, when present, holds a list. -/
structure WorkerEvent where
  items : Option (List JVal)

/-- Response of the worker handler: the milliseconds slept before
returning, the status code, and the JSON body. -/
structure WorkerResponse where
  sleptMs : Nat
  statusCode : Nat
  body : JVal

/-- `handler` in `lambda/worker.py` (source lines 5-18): sleeps 0.1 s,
then returns status 200 with a body carrying a fixed message, the
current timestamp, and `processed_items = len(event.get('items', []))`. -/
def handler (event : WorkerEvent) (now : String) : WorkerResponse :=
  { sleptMs := 100,
    statusCode := 200,
    body := .jobj [("message", .jstr "Worker task completed"),
                   ("timestamp", .jstr now),
                   ("processed_items", .jint ((event.items.getD []).length : Int))] }

theorem runAttempts_length (rc : Nat → Int) (n : Nat) :
    (runAttempts rc n).length = n := by
  induction n with
  | zero => rfl
  | succ k ih => simp [runAttempts, ih]

/-- C1: selecting scenario 2 or 6 from the menu while the session has no
sink ARN (monitoring account not deployed) prints the
requires-monitoring error, never calls `deploy_scenario`, never saves
state, and leaves the session unchanged. -/
theorem scenario_requires_sink_rejected (sess : Session) (n : Nat)
    (ans : String) (dep : Bool) (hn : n = 2 ∨ n = 6)
    (hsink : sess.sink_arn = none) :
    (scenario_menu_step sess n ans dep).sess = sess ∧
    (scenario_menu_step sess n ans dep).errorPrinted = true ∧
    (scenario_menu_step sess n ans dep).deployCalled = false ∧
    (scenario_menu_step sess n ans dep).stateSaved = false := by
  rcases hn with h | h <;> subst h <;>
    simp [scenario_menu_step, pyFalsyStr, hsink]

theorem scenario_requires_sink_rejected_witness :
    ((2 : Nat) = 2 ∨ (2 : Nat) = 6) ∧
    (scenario_menu_step ⟨none, none⟩ 2 "y" true).sess = ⟨none, none⟩ ∧
    (scenario_menu_step ⟨none, none⟩ 2 "y" true).errorPrinted = true ∧
    (scenario_menu_step ⟨none, none⟩ 2 "y" true).deployCalled = false ∧
    (scenario_menu_step ⟨none, none⟩ 2 "y" true).stateSaved = false :=
  ⟨Or.inl rfl,
   scenario_requires_sink_rejected ⟨none, none⟩ 2 "y" true (Or.inl rfl) rfl⟩

/-- C2: what the dispatch chain actually does with `g`, `G`, `d`, `D`.
Because the case-insensitive test for `g` (source line 1425) precedes
the test for `G` (line 1451), and the case-insensitive test for `D`
(line 1455) precedes the test for `d` (line 1470), the inputs `G` and
`d` are captured by the load-generation and interactive-destruction
branches; the Grafana and destroy-current branches are unreachable,
contradicting the printed menu. -/
theorem dispatch_gG_dD_behavior :
    dispatch "g" = .generateLoad ∧
    dispatch "G" = .generateLoad ∧
    dispatch "D" = .destroyInteractive ∧
    dispatch "d" = .destroyInteractive ∧
    dispatch "G" ≠ .showGrafana ∧
    dispatch "d" ≠ .destroyCurrent := by
  decide

/-- C3: the state file round-trips `current_scenario` and `sink_arn`
through `save_state` / `load_state`; a missing or corrupt state file
loads as the default record without raising; a failed write is caught,
logged as a warning, and the call returns normally. -/
theorem state_roundtrip_and_failures (c : Option Int) (s : Option String)
    (t : Int) :
    pyGet (load_state (.content (stateJson c s t))) "current_scenario"
      = encOptInt c ∧
    pyGet (load_state (.content (stateJson c s t))) "sink_arn"
      = encOptStr s ∧
    load_state .missing = defaultState ∧
    load_state .corrupt = defaultState ∧
    save_state true c s t = .written (stateJson c s t) ∧
    save_state false c s t = .warnedFailure :=
  ⟨rfl, rfl, rfl, rfl, rfl, rfl⟩

/-- C4: when the stack-existence check of a destroy action fails with a
stderr containing `does not exist`, both `destroy_scenario` and
`destroy_monitoring_account` return `True` and never invoke the destroy
command. -/
theorem destroy_when_absent (rc : Int) (err : String) (b : Bool)
    (ans : String) (drc : Int) (hrc : rc ≠ 0)
    (herr : strHasSub err "does not exist" = true) :
    (destroy_scenario rc err b ans drc).result = true ∧
    (destroy_scenario rc err b ans drc).destroyInvoked = false ∧
    (destroy_monitoring_account rc err b ans drc).result = true ∧
    (destroy_monitoring_account rc err b ans drc).destroyInvoked = false := by
  simp [destroy_scenario, destroy_monitoring_account, hrc, herr]

theorem destroy_when_absent_witness :
    ((1 : Int) ≠ 0) ∧
    strHasSub "Stack with id Scenario1Stack does not exist" "does not exist"
      = true ∧
    (destroy_scenario 1 "Stack with id Scenario1Stack does not exist"
      false "" 0).result = true ∧
    (destroy_scenario 1 "Stack with id Scenario1Stack does not exist"
      false "" 0).destroyInvoked = false ∧
    (destroy_monitoring_account 1 "Stack with id Scenario1Stack does not exist"
      false "" 0).result = true ∧
    (destroy_monitoring_account 1 "Stack with id Scenario1Stack does not exist"
      false "" 0).destroyInvoked = false := by
  refine ⟨by decide, by decide, ?_⟩
  have h := destroy_when_absent 1
    "Stack with id Scenario1Stack does not exist" false "" 0
    (by decide) (by decide)
  exact ⟨h.1, h.2.1, h.2.2.1, h.2.2.2⟩

theorem collectSel_none_of_bad (stks : List String) (is : List Int)
    (i : Int) (hmem : i ∈ is)
    (hbad : ¬(1 ≤ i ∧ i ≤ (stks.length : Int))) :
    collectSel stks is = none := by
  induction is with
  | nil => cases hmem
  | cons a rest ih =>
    rcases List.mem_cons.mp hmem with h | h
    · subst h
      simp only [collectSel]
      split
      · rename_i hcond
        exact absurd (by simpa using hcond) hbad
      · rfl
    · simp only [collectSel]
      split
      · rename_i hcond
        simp [ih h]
      · rfl

/-- C5: with five listed stacks, input `2,4` selects exactly the stacks
at positions 2 and 4, input `all` selects all five, and any parsed index
list containing an index outside `1..5` rejects the whole selection
(no stack selected). -/
theorem inventory_selection (a b c d e : String) :
    interactive_select [a, b, c, d, e] "2,4" = some [b, d] ∧
    interactive_select [a, b, c, d, e] "all" = some [a, b, c, d, e] ∧
    (∀ (raw : String) (is : List Int),
      parseIndices (strLower (pyStrip raw)) = some is →
      (∃ i ∈ is, ¬(1 ≤ i ∧ i ≤ 5)) →
      interactive_select [a, b, c, d, e] raw = none) := by
  refine ⟨rfl, rfl, ?_⟩
  intro raw is hp hbad
  obtain ⟨i, hmem, hi⟩ := hbad
  unfold interactive_select select_stacks_core
  by_cases hq : strLower (pyStrip raw) = "q"
  · rw [hq] at hp; exact Option.noConfusion hp
  by_cases hall : strLower (pyStrip raw) = "all"
  · rw [hall] at hp; exact Option.noConfusion hp
  have hcol : collectSel [a, b, c, d, e] is = none :=
    collectSel_none_of_bad [a, b, c, d, e] is i hmem (by simpa using hi)
  simp [hq, hall, hp, hcol]

theorem inventory_selection_witness :
    interactive_select ["s1", "s2", "s3", "s4", "s5"] "2,4"
      = some ["s2", "s4"] ∧
    interactive_select ["s1", "s2", "s3", "s4", "s5"] "all"
      = some ["s1", "s2", "s3", "s4", "s5"] ∧
    (parseIndices (strLower (pyStrip "7")) = some [7] ∧
     interactive_select ["s1", "s2", "s3", "s4", "s5"] "7" = none) := by
  refine ⟨(inventory_selection "s1" "s2" "s3" "s4" "s5").1,
          (inventory_selection "s1" "s2" "s3" "s4" "s5").2.1,
          rfl, ?_⟩
  exact (inventory_selection "s1" "s2" "s3" "s4" "s5").2.2 "7" [7] rfl
    ⟨7, by decide, by decide⟩

/-- C6: once the target resource name is found in the stack outputs
(present and non-empty, so the `if not name` guard passes), the
scenario-1 load routine performs exactly `duration * 12` invocation
attempts and the scenario-2 routine exactly `duration * 10` write
attempts, whatever the individual iteration exit codes are. -/
theorem load_iteration_counts (outs : List (String × String)) (nm : String)
    (rc1 rc2 : Nat → Int) (d : Nat) :
    (outs.lookup "LambdaFunctionName" = some nm → nm ≠ "" →
      (generate_load_scenario1 outs rc1 d).1 = true ∧
      (generate_load_scenario1 outs rc1 d).2.length = d * 12) ∧
    (outs.lookup "TableName" = some nm → nm ≠ "" →
      (generate_load_scenario2 outs rc2 d).1 = true ∧
      (generate_load_scenario2 outs rc2 d).2.length = d * 10) := by
  constructor <;> intro h hne <;>
    simp [generate_load_scenario1, generate_load_scenario2, h, pyFalsyStr,
      hne, runAttempts_length]

theorem load_iteration_counts_witness :
    ([("LambdaFunctionName", "fn"), ("TableName", "tb")].lookup
      "LambdaFunctionName" = some "fn") ∧ ("fn" ≠ "") ∧
    (generate_load_scenario1 [("LambdaFunctionName", "fn"), ("TableName", "tb")]
      (fun _ => 0) 5).2.length = 60 ∧
    (generate_load_scenario2 [("LambdaFunctionName", "fn"), ("TableName", "tb")]
      (fun _ => 1) 5).2.length = 50 := by
  refine ⟨rfl, by decide, ?_, ?_⟩
  · exact ((load_iteration_counts
      [("LambdaFunctionName", "fn"), ("TableName", "tb")] "fn"
      (fun _ => 0) (fun _ => 1) 5).1 rfl (by decide)).2
  · exact ((load_iteration_counts
      [("LambdaFunctionName", "fn"), ("TableName", "tb")] "tb"
      (fun _ => 0) (fun _ => 1) 5).2 rfl (by decide)).2

/-- C7: when the caller identity resolves to an account other than the
configured monitoring account, `deploy_monitoring_account` prints the
mismatch error and returns `None` with no entry-point artifact written
and no synth or deploy command run. -/
theorem deploy_monitoring_mismatch_fails_fast (expected acct : String)
    (bootstrapOk : Bool) (synthRc : Int) (ans : String) (deployRc : Int)
    (sinkRc : Int) (sinkOut : String) (hneq : acct ≠ expected) :
    deploy_monitoring_account expected 0 acct bootstrapOk synthRc ans
        deployRc sinkRc sinkOut =
      { result := none, binWritten := false, synthRun := false,
        deployRun := false, errorPrinted := true } := by
  simp [deploy_monitoring_account, hneq]

theorem deploy_monitoring_mismatch_fails_fast_witness :
    ("222222222222" ≠ "111111111111") ∧
    deploy_monitoring_account "111111111111" 0 "222222222222" true 0 "y"
        0 0 "arn:sink" =
      { result := none, binWritten := false, synthRun := false,
        deployRun := false, errorPrinted := true } :=
  ⟨by decide,
   deploy_monitoring_mismatch_fails_fast "111111111111" "222222222222"
     true 0 "y" 0 0 "arn:sink" (by decide)⟩

/-- C8 counterexample: with the stack present, the operator confirming,
and the entry-point artifact previously cleaned up, `destroy_scenario`
does not regenerate the artifact: it aborts with `False` and never runs
the destroy command, contrary to the claim. -/
theorem destroy_scenario_missing_artifact_counterexample :
    (destroy_scenario 0 "" false "y" 0).binWritten = false ∧
    (destroy_scenario 0 "" false "y" 0).destroyInvoked = false ∧
    (destroy_scenario 0 "" false "y" 0).result = false := by
  decide

/-- C8 amended: only `destroy_monitoring_account` regenerates a missing
entry-point artifact before destroying (and on success deletes it and
returns `True`); `destroy_scenario` aborts with `False`, without
invoking destroy, when the artifact is missing, and when the artifact
exists it destroys, deletes the artifact on success and returns
`True`. -/
theorem destroy_artifact_lifecycle (err ans : String) (drc : Int)
    (hans : strLower ans = "y") :
    ((destroy_monitoring_account 0 err false ans drc).binWritten = true ∧
     (destroy_monitoring_account 0 err false ans drc).destroyInvoked = true) ∧
    ((destroy_monitoring_account 0 err false ans 0).result = true ∧
     (destroy_monitoring_account 0 err false ans 0).binExistsAfter = false) ∧
    ((destroy_scenario 0 err false ans drc).result = false ∧
     (destroy_scenario 0 err false ans drc).destroyInvoked = false) ∧
    ((destroy_scenario 0 err true ans 0).result = true ∧
     (destroy_scenario 0 err true ans 0).destroyInvoked = true ∧
     (destroy_scenario 0 err true ans 0).binExistsAfter = false) ∧
    (destroy_monitoring_account 0 err true ans drc).binWritten = false := by
  by_cases hd : drc = 0 <;>
    simp [destroy_scenario, destroy_monitoring_account, hans, hd]

theorem destroy_artifact_lifecycle_witness :
    strLower "y" = "y" ∧
    (((destroy_monitoring_account 0 "" false "y" 1).binWritten = true ∧
      (destroy_monitoring_account 0 "" false "y" 1).destroyInvoked = true) ∧
     ((destroy_monitoring_account 0 "" false "y" 0).result = true ∧
      (destroy_monitoring_account 0 "" false "y" 0).binExistsAfter = false) ∧
     ((destroy_scenario 0 "" false "y" 1).result = false ∧
      (destroy_scenario 0 "" false "y" 1).destroyInvoked = false) ∧
     ((destroy_scenario 0 "" true "y" 0).result = true ∧
      (destroy_scenario 0 "" true "y" 0).destroyInvoked = true ∧
      (destroy_scenario 0 "" true "y" 0).binExistsAfter = false) ∧
     (destroy_monitoring_account 0 "" true "y" 1).binWritten = false) :=
  ⟨by decide, destroy_artifact_lifecycle "" "y" 1 (by decide)⟩

/-- C9: for every input event the worker handler sleeps its fixed 100 ms
delay and returns status 200 with a body whose `processed_items` equals
the length of the items list (0 when the key is absent) next to a
timestamp. -/
theorem worker_handler_response (ev : WorkerEvent) (now : String) :
    (handler ev now).statusCode = 200 ∧
    pyGet (handler ev now).body "processed_items"
      = .jint ((ev.items.getD []).length : Int) ∧
    pyGet (handler ev now).body "timestamp" = .jstr now ∧
    pyGet (handler { items := none } now).body "processed_items"
      = .jint 0 ∧
    (handler ev now).sleptMs = 100 :=
  ⟨rfl, rfl, rfl, rfl, rfl⟩

/-- C10: at the load-generation menu action with a scenario set, an
explicitly entered duration parsing to an integer below 1 or above 30
is rejected before `generate_load` can run; a non-numeric entry — one
of printable ASCII characters that `int()` refuses, the alphabet on
which the modelled parser is exact — is likewise rejected; an empty
entry defaults the duration to 5. -/
theorem g_duration_validation (n : Nat) (durRaw ans : String) (d : Int) :
    (pyIntParse (pyStrip durRaw) = some d → (d < 1 ∨ d > 30) →
      g_menu_step (some n) durRaw ans = .rejectedRange d) ∧
    ((pyStrip durRaw).data.all isPrintableAscii = true →
      pyStrip durRaw ≠ "" → pyIntParse (pyStrip durRaw) = none →
      g_menu_step (some n) durRaw ans = .rejectedParse) ∧
    (pyStrip durRaw = "" → strLower ans = "y" →
      g_menu_step (some n) durRaw ans = .loadRun 5) := by
  refine ⟨?_, ?_, ?_⟩
  · intro hp hd
    have hne : pyStrip durRaw ≠ "" := by
      intro he; rw [he] at hp; exact Option.noConfusion hp
    rcases hd with h | h <;> simp [g_menu_step, hne, hp, h]
  · intro _ hne hp
    simp [g_menu_step, hne, hp]
  · intro he hy
    simp [g_menu_step, he, hy]

theorem g_duration_validation_witness :
    (pyIntParse (pyStrip "0") = some 0 ∧
      g_menu_step (some 1) "0" "y" = .rejectedRange 0) ∧
    ((pyStrip "abc").data.all isPrintableAscii = true ∧
      pyStrip "abc" ≠ "" ∧ pyIntParse (pyStrip "abc") = none ∧
      g_menu_step (some 1) "abc" "y" = .rejectedParse) ∧
    (pyStrip "" = "" ∧
      g_menu_step (some 1) "" "y" = .loadRun 5) := by
  refine ⟨⟨rfl, ?_⟩, ⟨by decide, by decide, rfl, ?_⟩, ⟨rfl, ?_⟩⟩
  · exact (g_duration_validation 1 "0" "y" 0).1 rfl (Or.inl (by decide))
  · exact (g_duration_validation 1 "abc" "y" 0).2.1 (by decide) (by decide) rfl
  · exact (g_duration_validation 1 "" "y" 0).2.2 rfl (by decide)

end Monitoring
